import Mathlib

/-!
Shallow embedding of the AI Agent Workbench backend (`src/backend/main.py`):
the in-memory stores (`agent_configs`, `agent_instances`, `conversations`,
`traces`), the configuration CRUD endpoints, tool synthesis
(`get_agent_instance`), the batch run orchestrator (`run_agent` /
`run_agent_task`) and the streaming orchestrator (`stream_agent_run`).

External boundaries (the agents execution engine, `exec` of tool source,
builtin tool constructors, the websocket connection) are modelled as
parameters: records of functions and outcome data supplied to the
orchestrator functions.  Python dicts are modelled as association lists
with dict-style insert/erase; raising is modelled with `Except`.
-/

namespace Workbench

/-- Python dict keyed by strings: association list with unique-key
insert/erase semantics. -/
abbrev Store (α : Type) : Type := List (String × α)

namespace Store

def find {α : Type} (s : Store α) (k : String) : Option α :=
  match s with
  | [] => none
  | (k', v) :: rest => if k' = k then some v else find rest k

/-- `d[k] = v`: any old binding for `k` is replaced. -/
def insert {α : Type} (s : Store α) (k : String) (v : α) : Store α :=
  (List.filter (fun p => p.1 ≠ k) s) ++ [(k, v)]

/-- `del d[k]`. -/
def erase {α : Type} (s : Store α) (k : String) : Store α :=
  List.filter (fun p => p.1 ≠ k) s

def values {α : Type} (s : Store α) : List α := s.map (fun p => p.2)

end Store

/-! ## Data model (`ToolConfig`, `AgentConfig`, messages, traces) -/

inductive ToolType where
  | function
  | web_search
  | file_search
deriving Repr, DecidableEq

/-- `ToolConfig` pydantic model; `parameters` is the kwargs dict for
`FileSearchTool`, modelled as a string-keyed store of opaque values. -/
structure ToolConfig where
  name : String
  description : String
  type : ToolType
  function_code : Option String := none
  parameters : Option (Store String) := none
deriving Repr, DecidableEq

/-- `AgentConfig` pydantic model (timestamps as abstract ticks). -/
structure AgentConfig where
  id : String
  name : String
  instructions : String
  model : String := "gpt-4.1"
  tools : List ToolConfig := []
  created_at : Nat := 0
  updated_at : Nat := 0
deriving Repr, DecidableEq

/-- The wire form of `AgentConfig` before pydantic fills defaults:
`id` is generated by `default_factory` when the caller omits it. -/
structure AgentConfigRequest where
  id : Option String := none
  name : String
  instructions : String
  model : String := "gpt-4.1"
  tools : List ToolConfig := []
deriving Repr, DecidableEq

/-- Pydantic parsing of an `AgentConfig` body: fill in the generated id and
timestamps where the caller omitted them. -/
def mkAgentConfig (freshId : String) (now : Nat) (r : AgentConfigRequest) : AgentConfig :=
  { id := r.id.getD freshId
    name := r.name
    instructions := r.instructions
    model := r.model
    tools := r.tools
    created_at := now
    updated_at := now }

structure Message where
  role : String
  content : String
deriving Repr, DecidableEq

structure RunRequest where
  agent_id : String
  input : String
  conversation_id : Option String := none
deriving Repr, DecidableEq

structure RunResponse where
  run_id : String
  agent_id : String
  conversation_id : String
  final_output : Option String := none
  status : String := "completed"
deriving Repr, DecidableEq

/-- A stored trace: `raw_responses`/`new_items` payloads are kept as opaque
serialized strings (`model_dump` output of the engine's objects). -/
structure Trace where
  raw_responses : List String
  new_items : List String
  timestamp : Nat
deriving Repr, DecidableEq

/-! ## External boundaries: tool capabilities and the execution engine -/

/-- A synthesized invocable capability (the result of `function_tool`,
`WebSearchTool()` or `FileSearchTool(**params)`), identified opaquely. -/
inductive Capability where
  | funTool (f : String)
  | webSearch (w : String)
  | fileSearch (f : String)
deriving Repr, DecidableEq

/-- Result of `exec`-ing tool source: a raised error, or a namespace mapping
names to callables. -/
structure SynthEnv where
  /-- `exec(tool_code, namespace)` then `namespace.get(name)`:
  `.error` = compilation raised; `.ok ns` = the executed namespace. -/
  compile : String → Except String (String → Option String)
  /-- `WebSearchTool()` — may raise. -/
  webSearchCtor : Except String String
  /-- `FileSearchTool(**parameters)` — may raise. -/
  fileSearchCtor : Store String → Except String String
  /-- `AZURE_MODEL_MAPPING["gpt-4.1"] = os.getenv(...)`. -/
  azureDeployment : Option String

/-- An `Agent(...)` instance; `model` is `Option` because the Azure mapping
can resolve to `None` when the deployment env var is unset. -/
structure Agent where
  name : String
  instructions : String
  model : Option String
  tools : List Capability
deriving Repr, DecidableEq

/-- Result of `Runner.run` on success. -/
structure EngineResult where
  final_output : String
  raw_responses : List String
  new_items : List String
deriving Repr, DecidableEq

/-! ## Global state and errors -/

/-- The four module-level dicts of `main.py`. -/
structure St where
  agent_configs : Store AgentConfig
  agent_instances : Store Agent
  conversations : Store (List Message)
  traces : Store Trace
deriving Repr, DecidableEq

/-- A raised exception: `HTTPException(404, "Agent not found")` or a
generic `Exception` carrying its message. -/
inductive Err where
  | notFound
  | exn (msg : String)
deriving Repr, DecidableEq

/-- `str(e)` as used in `f"Error: {str(e)}"`. -/
def Err.text : Err → String
  | .notFound => "404: Agent not found"
  | .exn m => m

/-! ## `get_agent_instance`: Tool Synthesizer + Agent Instance Cache -/

/-- Truthiness of `tool_config.get("function_code")`. -/
def codeTruthy : Option String → Bool
  | none => false
  | some c => c ≠ ""

/-- Truthiness of `tool_config.get("parameters")` (empty dict is falsy). -/
def paramsTruthy : Option (Store String) → Bool
  | none => false
  | some p => p ≠ []

/-- The tool-creation loop of `get_agent_instance` (lines 435–467).
`function`-kind failures are caught (`continue`); `web_search` /
`file_search` constructor exceptions are NOT caught and propagate. -/
def synthTools (env : SynthEnv) : List ToolConfig → Except String (List Capability)
  | [] => .ok []
  | tc :: rest =>
    match tc.type with
    | .function =>
      if codeTruthy tc.function_code then
        match env.compile (tc.function_code.getD "") with
        | .error _ => synthTools env rest
        | .ok ns =>
          match ns tc.name with
          | none => synthTools env rest
          | some f => do
            let caps ← synthTools env rest
            .ok (Capability.funTool f :: caps)
      else
        synthTools env rest
    | .web_search => do
      let w ← env.webSearchCtor
      let caps ← synthTools env rest
      .ok (Capability.webSearch w :: caps)
    | .file_search =>
      if paramsTruthy tc.parameters then do
        let f ← env.fileSearchCtor (tc.parameters.getD [])
        let caps ← synthTools env rest
        .ok (Capability.fileSearch f :: caps)
      else
        synthTools env rest

/-- `AZURE_MODEL_MAPPING` lookup (lines 428–432). -/
def mapModel (env : SynthEnv) (model : String) : Option String :=
  if model = "gpt-4.1" then env.azureDeployment else some model

/-- `get_agent_instance` (lines 417–480): cache hit, else build from config
(NotFound propagates; a builtin tool constructor raising propagates) and
cache the instance. -/
def get_agent_instance (env : SynthEnv) (st : St) (agent_id : String) :
    Except Err (Agent × St) :=
  match st.agent_instances.find agent_id with
  | some a => .ok (a, st)
  | none =>
    match st.agent_configs.find agent_id with
    | none => .error .notFound
    | some config =>
      match synthTools env config.tools with
      | .error e => .error (.exn e)
      | .ok tools =>
        let agent : Agent :=
          { name := config.name
            instructions := config.instructions
            model := mapModel env config.model
            tools := tools }
        .ok (agent, { st with agent_instances := st.agent_instances.insert agent_id agent })

/-! ## Configuration Store endpoints -/

/-- `create_agent` (lines 182–185): store under `agent_config.id`, return it.
No collision check — an existing binding for the same id is replaced. -/
def create_agent (st : St) (agent_config : AgentConfig) : AgentConfig × St :=
  (agent_config,
   { st with agent_configs := st.agent_configs.insert agent_config.id agent_config })

/-- `list_agents` (lines 187–189). -/
def list_agents (st : St) : List AgentConfig :=
  st.agent_configs.values

/-- `get_agent` (lines 191–195). -/
def get_agent (st : St) (agent_id : String) : Except Err AgentConfig :=
  match st.agent_configs.find agent_id with
  | none => .error .notFound
  | some c => .ok c

/-- `update_agent` (lines 197–210): 404 when absent; else replace wholesale
with `id := agent_id`, stamp `updated_at`, and evict any cached instance. -/
def update_agent (st : St) (agent_id : String) (agent_config : AgentConfig) (now : Nat) :
    Except Err AgentConfig × St :=
  if (st.agent_configs.find agent_id).isNone then
    (.error .notFound, st)
  else
    let cfg := { agent_config with id := agent_id, updated_at := now }
    (.ok cfg,
     { st with
        agent_configs := st.agent_configs.insert agent_id cfg
        agent_instances := st.agent_instances.erase agent_id })

/-- `delete_agent` (lines 212–223): 404 when absent; else remove the config
and evict any cached instance. -/
def delete_agent (st : St) (agent_id : String) : Except Err Unit × St :=
  if (st.agent_configs.find agent_id).isNone then
    (.error .notFound, st)
  else
    (.ok (),
     { st with
        agent_configs := st.agent_configs.erase agent_id
        agent_instances := st.agent_instances.erase agent_id })

/-- `delete_conversation` (lines 400–405). -/
def delete_conversation (st : St) (conversation_id : String) : Except Err Unit × St :=
  if (st.conversations.find conversation_id).isNone then
    (.error .notFound, st)
  else
    (.ok (), { st with conversations := st.conversations.erase conversation_id })

/-- `get_trace` (lines 409–413). -/
def get_trace (st : St) (run_id : String) : Except Err Trace :=
  match st.traces.find run_id with
  | none => .error .notFound
  | some t => .ok t

/-! ## Run Orchestrator — batch mode -/

/-- `if conversation_id not in conversations: conversations[...] = []`. -/
def ensureConv (st : St) (conversation_id : String) : St :=
  if (st.conversations.find conversation_id).isNone then
    { st with conversations := st.conversations.insert conversation_id [] }
  else
    st

/-- `conversations[conversation_id].append(msg)`; a missing key would raise
`KeyError` in Python, modelled as a no-op (all uses are key-present). -/
def appendMsg (st : St) (conversation_id : String) (m : Message) : St :=
  match st.conversations.find conversation_id with
  | none => st
  | some msgs =>
    { st with conversations := st.conversations.insert conversation_id (msgs ++ [m]) }

/-- `run_agent` (`POST /api/run`, lines 227–263): check the config exists,
generate run/conversation ids, create the conversation if needed, append
the user message, schedule `run_agent_task`, and return immediately with
status `"running"`. The scheduled task's arguments are exactly the
returned `run_id`, the request's `agent_id`/`input` and the resolved
`conversation_id`. -/
def run_agent (st : St) (run_request : RunRequest) (freshRun freshConv : String) :
    Except Err RunResponse × St :=
  if (st.agent_configs.find run_request.agent_id).isNone then
    (.error .notFound, st)
  else
    let run_id := freshRun
    let conversation_id := run_request.conversation_id.getD freshConv
    let st₁ := ensureConv st conversation_id
    let st₂ := appendMsg st₁ conversation_id ⟨"user", run_request.input⟩
    (.ok { run_id := run_id
           agent_id := run_request.agent_id
           conversation_id := conversation_id
           final_output := none
           status := "running" },
     st₂)

/-- Batch engine boundary: `Runner.run(agent, input)` plus the trace
timestamp. -/
structure RunEnv where
  synth : SynthEnv
  engine : Agent → String → Except String EngineResult
  timestamp : Nat

/-- `run_agent_task` (lines 265–293): resolve the instance, invoke the
engine, append the assistant message and write the trace; on any exception
append a system message `"Error: ..."` instead (and write no trace). -/
def run_agent_task (env : RunEnv) (st : St)
    (run_id agent_id conversation_id input_text : String) : St :=
  match get_agent_instance env.synth st agent_id with
  | .error e =>
    appendMsg st conversation_id ⟨"system", "Error: " ++ e.text⟩
  | .ok (agent, st₁) =>
    match env.engine agent input_text with
    | .error e =>
      appendMsg st₁ conversation_id ⟨"system", "Error: " ++ e⟩
    | .ok result =>
      let st₂ := appendMsg st₁ conversation_id ⟨"assistant", result.final_output⟩
      { st₂ with
          traces := st₂.traces.insert run_id
            { raw_responses := result.raw_responses
              new_items := result.new_items
              timestamp := env.timestamp } }

/-- A full batch run: `run_agent` followed by its scheduled
`run_agent_task` continuation (on NotFound the task is never scheduled). -/
def batchRun (env : RunEnv) (st : St) (run_request : RunRequest)
    (freshRun freshConv : String) : Except Err RunResponse × St :=
  match run_agent st run_request freshRun freshConv with
  | (.error e, st') => (.error e, st')
  | (.ok resp, st') =>
    (.ok resp,
     run_agent_task env st' resp.run_id run_request.agent_id resp.conversation_id
       run_request.input)

/-! ## Run Orchestrator — streaming mode -/

/-- One engine stream event as forwarded: its resolved `type` string and its
serialized payload (the duck-typed introspection of lines 330–351 collapsed
to its result). -/
structure StreamEvent where
  type : String
  data : String
deriving Repr, DecidableEq

/-- The `data` field of a websocket JSON message. -/
inductive WsData where
  | payload (s : String)
  | finalOutput (content : String)
  | errorData (message : String)
deriving Repr, DecidableEq

/-- A `{type, data}` JSON message sent over the websocket. -/
structure WsMsg where
  type : String
  data : WsData
deriving Repr, DecidableEq

/-- An exception raised by a connection interaction: `WebSocketDisconnect`
or anything else (e.g. `json.loads` failing on a malformed payload). -/
inductive ConnErr where
  | disconnect
  | exn (msg : String)
deriving Repr, DecidableEq

/-- The parsed `{input, conversation_id?}` client message. -/
structure RunData where
  input : String
  conversation_id : Option String := none
deriving Repr, DecidableEq

/-- The environment of one streaming session: the connection's behaviour
and the engine's emissions. `sendLimit = some n` means the client
disconnects so that the `(n+1)`-th send raises `WebSocketDisconnect`;
`none` means the client stays connected. `Runner.run_streamed(agent,
input)` yields the events `events agent input` and then either completes
(`engineEnd agent input = .ok result`, with `result.final_output` the
final output) or raises mid-stream (`.error`). -/
structure StreamEnv where
  synth : SynthEnv
  recv : Except ConnErr RunData
  events : Agent → String → List StreamEvent
  engineEnd : Agent → String → Except String EngineResult
  sendLimit : Option Nat
  timestamp : Nat

/-- `await websocket.send_json(m)`: `none` = the send raised
`WebSocketDisconnect`. -/
def trySend (limit : Option Nat) (sent : List WsMsg) (m : WsMsg) : Option (List WsMsg) :=
  match limit with
  | none => some (sent ++ [m])
  | some n => if sent.length < n then some (sent ++ [m]) else none

/-- The forwarding loop (lines 329–356); the `Bool` is true when a send
disconnected mid-loop. -/
def sendEvents (limit : Option Nat) (sent : List WsMsg) :
    List StreamEvent → List WsMsg × Bool
  | [] => (sent, false)
  | ev :: rest =>
    match trySend limit sent ⟨ev.type, .payload ev.data⟩ with
    | none => (sent, true)
    | some sent' => sendEvents limit sent' rest

/-- What one streaming session leaves behind: the messages actually sent,
whether the connection ended closed, and the final shared state. -/
structure StreamOutcome where
  sent : List WsMsg
  closed : Bool
  st : St
deriving Repr, DecidableEq

/-- The `except Exception` branch (lines 381–383) plus `finally`: try to
send `{type: "error", data: {message}}`; the connection is closed either
way (by the `finally` close, or because the peer disconnected). -/
def sendError (limit : Option Nat) (sent : List WsMsg) (message : String) (st : St) :
    StreamOutcome :=
  match trySend limit sent ⟨"error", .errorData message⟩ with
  | none => ⟨sent, true, st⟩
  | some sent' => ⟨sent', true, st⟩

/-- `stream_agent_run` (lines 295–386): receive one `{input,
conversation_id?}` message, resolve the agent, append the user message,
forward engine events, then send `final_output`, append the assistant
message and store the trace under a fresh `runId`; `WebSocketDisconnect`
abandons the run silently, any other exception is reported with an
`error` message; every path closes the connection. -/
def stream_agent_run (env : StreamEnv) (st : St) (agent_id : String)
    (freshConv runId : String) : StreamOutcome :=
  match env.recv with
  | .error .disconnect => ⟨[], true, st⟩
  | .error (.exn m) => sendError env.sendLimit [] m st
  | .ok run_data =>
    match get_agent_instance env.synth st agent_id with
    | .error e => sendError env.sendLimit [] e.text st
    | .ok (agent, st₁) =>
      let conversation_id := run_data.conversation_id.getD freshConv
      let st₂ := appendMsg (ensureConv st₁ conversation_id) conversation_id
        ⟨"user", run_data.input⟩
      match sendEvents env.sendLimit [] (env.events agent run_data.input) with
      | (sent, true) => ⟨sent, true, st₂⟩
      | (sent, false) =>
        match env.engineEnd agent run_data.input with
        | .error m => sendError env.sendLimit sent m st₂
        | .ok result =>
          match trySend env.sendLimit sent
              ⟨"final_output", .finalOutput result.final_output⟩ with
          | none => ⟨sent, true, st₂⟩
          | some sent' =>
            let st₃ := appendMsg st₂ conversation_id
              ⟨"assistant", result.final_output⟩
            ⟨sent', true,
             { st₃ with
                traces := st₃.traces.insert runId
                  { raw_responses := result.raw_responses
                    new_items := result.new_items
                    timestamp := env.timestamp } }⟩

/-! ## All state-touching operations, for global invariants -/

/-- Every operation of the API that can touch the shared state. -/
inductive Op where
  | createA (cfg : AgentConfig)
  | updateA (id : String) (cfg : AgentConfig) (now : Nat)
  | deleteA (id : String)
  | submitRun (req : RunRequest) (freshRun freshConv : String)
  | taskRun (env : RunEnv) (runId agentId convId input : String)
  | streamRun (env : StreamEnv) (agentId freshConv runId : String)
  | deleteConv (id : String)

def Op.apply : Op → St → St
  | .createA cfg, st => (create_agent st cfg).2
  | .updateA id cfg now, st => (update_agent st id cfg now).2
  | .deleteA id, st => (delete_agent st id).2
  | .submitRun req fr fc, st => (run_agent st req fr fc).2
  | .taskRun env rid aid cid inp, st => run_agent_task env st rid aid cid inp
  | .streamRun env aid fc rid, st => (stream_agent_run env st aid fc rid).st
  | .deleteConv id, st => (delete_conversation st id).2

/-- The run id a run-executing operation writes its trace under was freshly
generated (`str(uuid.uuid4())`): it is not yet a key of `traces`. -/
def Op.freshTraceId : Op → St → Prop
  | .taskRun _ rid _ _ _, st => st.traces.find rid = none
  | .streamRun _ _ _ rid, st => st.traces.find rid = none
  | _, _ => True

/-! ## Concrete fixtures (external boundaries instantiated for evaluation) -/

def st0 : St := ⟨[], [], [], []⟩

/-- A concrete tool-synthesis boundary: source `"bad("` fails to compile,
everything else compiles to a namespace defining only `g`; the builtin
web-search constructor raises. -/
def synthEnvX : SynthEnv :=
  { compile := fun code =>
      if code = "bad(" then .error "SyntaxError: invalid source"
      else .ok (fun n => if n = "g" then some "g_fn" else none)
    webSearchCtor := .error "web constructor raised"
    fileSearchCtor := fun _ => .ok "fs_cap"
    azureDeployment := some "azure-gpt41" }

def runEnvOk : RunEnv :=
  { synth := synthEnvX
    engine := fun _ inp => .ok ⟨"echo:" ++ inp, ["raw0"], ["item0"]⟩
    timestamp := 5 }

def runEnvFail : RunEnv :=
  { synth := synthEnvX
    engine := fun _ _ => .error "engine down"
    timestamp := 7 }

def streamEnvOk : StreamEnv :=
  { synth := synthEnvX
    recv := .ok ⟨"hi", none⟩
    events := fun _ _ => [⟨"delta", "d1"⟩]
    engineEnd := fun _ _ => .ok ⟨"out", ["raw1"], ["item1"]⟩
    sendLimit := none
    timestamp := 9 }

def streamEnvFail : StreamEnv :=
  { synth := synthEnvX
    recv := .ok ⟨"hi", none⟩
    events := fun _ _ => [⟨"delta", "d1"⟩]
    engineEnd := fun _ _ => .error "stream broke"
    sendLimit := none
    timestamp := 9 }

def cfgEcho : AgentConfig := { id := "a", name := "Echo", instructions := "echo the input" }

def stEcho : St := ⟨[("a", cfgEcho)], [], [], []⟩

/-- The instance `get_agent_instance synthEnvX` builds for `cfgEcho`. -/
def agentEcho : Agent :=
  { name := "Echo", instructions := "echo the input", model := some "azure-gpt41", tools := [] }

def toolBad : ToolConfig :=
  { name := "b", description := "d", type := .function, function_code := some "bad(" }

def toolG : ToolConfig :=
  { name := "g", description := "d", type := .function, function_code := some "def g(x): return x" }

def toolWeb : ToolConfig := { name := "w", description := "d", type := .web_search }

def cfgWeb : AgentConfig :=
  { id := "b", name := "WebAgent", instructions := "i", tools := [toolWeb, toolG] }

def stWeb : St := ⟨[("b", cfgWeb)], [], [], []⟩

def cfgBadTool : AgentConfig :=
  { id := "f", name := "FnAgent", instructions := "i", tools := [toolBad, toolG] }

def stBadTool : St := ⟨[("f", cfgBadTool)], [], [], []⟩

def cfgOld : AgentConfig := { id := "a", name := "old", instructions := "i1" }

def cfgNew : AgentConfig := { id := "a", name := "new", instructions := "i2" }

def trX : Trace := ⟨["rawX"], ["itemX"], 1⟩

/-- `stEcho` with one pre-existing trace under key `"t0"`. -/
def stTr : St := ⟨[("a", cfgEcho)], [], [], [("t0", trX)]⟩

/-! ## Store lemmas -/

theorem Store.find_insert_self {α : Type} (s : Store α) (k : String) (v : α) :
    (insert s k v).find k = some v := by
  induction s with
  | nil => simp [insert, find]
  | cons p rest ih =>
    by_cases h : p.1 = k <;> simp_all [insert, find, List.filter_cons]

theorem Store.find_insert_ne {α : Type} (s : Store α) (k k' : String) (v : α) (h : k ≠ k') :
    (insert s k v).find k' = s.find k' := by
  induction s with
  | nil => simp [insert, find, h]
  | cons p rest ih =>
    by_cases hp : p.1 = k <;> by_cases hpk : p.1 = k' <;>
      simp_all [insert, find, List.filter_cons]

theorem Store.find_erase_self {α : Type} (s : Store α) (k : String) :
    (erase s k).find k = none := by
  induction s with
  | nil => rfl
  | cons p rest ih =>
    by_cases hp : p.1 = k <;> simp_all [erase, find, List.filter_cons]

theorem Store.find_erase_ne {α : Type} (s : Store α) (k k' : String) (h : k ≠ k') :
    (erase s k).find k' = s.find k' := by
  induction s with
  | nil => rfl
  | cons p rest ih =>
    by_cases hp : p.1 = k <;> by_cases hpk : p.1 = k' <;>
      simp_all [erase, find, List.filter_cons]

theorem Store.find_mem {α : Type} (s : Store α) (k : String) (v : α)
    (h : s.find k = some v) : (k, v) ∈ s := by
  induction s with
  | nil => simp [find] at h
  | cons p rest ih =>
    simp only [find] at h
    by_cases hp : p.1 = k
    · rw [if_pos hp] at h
      cases p
      simp_all
    · rw [if_neg hp] at h
      exact List.mem_cons_of_mem _ (ih h)

/-! ## Frame lemmas -/

theorem appendMsg_agent_configs (st : St) (cid : String) (m : Message) :
    (appendMsg st cid m).agent_configs = st.agent_configs := by
  cases hc : st.conversations.find cid <;> simp [appendMsg, hc]

theorem appendMsg_traces (st : St) (cid : String) (m : Message) :
    (appendMsg st cid m).traces = st.traces := by
  cases hc : st.conversations.find cid <;> simp [appendMsg, hc]

theorem appendMsg_instances (st : St) (cid : String) (m : Message) :
    (appendMsg st cid m).agent_instances = st.agent_instances := by
  cases hc : st.conversations.find cid <;> simp [appendMsg, hc]

theorem appendMsg_find_self (st : St) (cid : String) (m : Message) (msgs : List Message)
    (h : st.conversations.find cid = some msgs) :
    (appendMsg st cid m).conversations.find cid = some (msgs ++ [m]) := by
  simp [appendMsg, h, Store.find_insert_self]

theorem appendMsg_find_ne (st : St) (cid k : String) (m : Message) (h : cid ≠ k) :
    (appendMsg st cid m).conversations.find k = st.conversations.find k := by
  cases hc : st.conversations.find cid <;>
    simp [appendMsg, hc, Store.find_insert_ne _ _ _ _ h]

theorem ensureConv_agent_configs (st : St) (cid : String) :
    (ensureConv st cid).agent_configs = st.agent_configs := by
  cases hc : st.conversations.find cid <;> simp [ensureConv, hc]

theorem ensureConv_traces (st : St) (cid : String) :
    (ensureConv st cid).traces = st.traces := by
  cases hc : st.conversations.find cid <;> simp [ensureConv, hc]

theorem ensureConv_instances (st : St) (cid : String) :
    (ensureConv st cid).agent_instances = st.agent_instances := by
  cases hc : st.conversations.find cid <;> simp [ensureConv, hc]

theorem ensureConv_find_ne (st : St) (cid k : String) (h : cid ≠ k) :
    (ensureConv st cid).conversations.find k = st.conversations.find k := by
  cases hc : st.conversations.find cid <;>
    simp [ensureConv, hc, Store.find_insert_ne _ _ _ _ h]

/-- After `ensureConv` + user append, the conversation holds its previous
content (empty when it did not exist) plus the new message. -/
theorem ensure_append_find (st : St) (cid : String) (m : Message) :
    (appendMsg (ensureConv st cid) cid m).conversations.find cid =
      some ((st.conversations.find cid).getD [] ++ [m]) := by
  cases hc : st.conversations.find cid with
  | none =>
    have h1 : (ensureConv st cid).conversations.find cid = some [] := by
      simp [ensureConv, hc, Store.find_insert_self]
    simp [appendMsg_find_self _ _ _ _ h1]
  | some msgs =>
    have h1 : (ensureConv st cid).conversations.find cid = some msgs := by
      simp [ensureConv, hc]
    simp [appendMsg_find_self _ _ _ _ h1]

/-- A successful `get_agent_instance` touches only the instance cache. -/
theorem get_agent_instance_ok {env : SynthEnv} {st : St} {aid : String}
    {a : Agent} {st' : St} (h : get_agent_instance env st aid = .ok (a, st')) :
    st'.agent_configs = st.agent_configs ∧ st'.conversations = st.conversations ∧
      st'.traces = st.traces := by
  cases hi : st.agent_instances.find aid with
  | some a0 =>
    simp [get_agent_instance, hi] at h
    rw [← h.2]
    exact ⟨rfl, rfl, rfl⟩
  | none =>
    cases hc : st.agent_configs.find aid with
    | none => simp [get_agent_instance, hi, hc] at h
    | some cfg =>
      cases hs : synthTools env cfg.tools with
      | error e => simp [get_agent_instance, hi, hc, hs] at h
      | ok tools =>
        simp [get_agent_instance, hi, hc, hs] at h
        rw [← h.2]
        exact ⟨rfl, rfl, rfl⟩

/-- `run_agent_task` appends exactly one terminal message to the target
conversation (assistant with the engine's final output on success, system
with the error text on any raise), and touches no other conversation. -/
theorem run_agent_task_conv (env : RunEnv) (st : St) (rid aid cid inp : String)
    (cur : List Message) (h : st.conversations.find cid = some cur) :
    ∃ t : Message,
      (run_agent_task env st rid aid cid inp).conversations.find cid = some (cur ++ [t]) ∧
      (∀ k, k ≠ cid → (run_agent_task env st rid aid cid inp).conversations.find k =
        st.conversations.find k) ∧
      (∀ a st₁ r, get_agent_instance env.synth st aid = .ok (a, st₁) →
        env.engine a inp = .ok r → t = ⟨"assistant", r.final_output⟩) ∧
      (∀ e, get_agent_instance env.synth st aid = .error e →
        t = ⟨"system", "Error: " ++ e.text⟩) ∧
      (∀ a st₁ e, get_agent_instance env.synth st aid = .ok (a, st₁) →
        env.engine a inp = .error e → t = ⟨"system", "Error: " ++ e⟩) := by
  cases hg : get_agent_instance env.synth st aid with
  | error e =>
    refine ⟨⟨"system", "Error: " ++ e.text⟩, ?_, ?_, ?_, ?_, ?_⟩
    · simp only [run_agent_task, hg]
      exact appendMsg_find_self _ _ _ _ h
    · intro k hk
      simp only [run_agent_task, hg]
      exact appendMsg_find_ne _ _ _ _ (Ne.symm hk)
    · intro a st₁ r hga
      simp at hga
    · intro e' hge
      simp_all
    · intro a st₁ e' hga
      simp at hga
  | ok p =>
    obtain ⟨a, st₁⟩ := p
    have hconv : st₁.conversations = st.conversations := (get_agent_instance_ok hg).2.1
    have h1 : st₁.conversations.find cid = some cur := by rw [hconv]; exact h
    cases he : env.engine a inp with
    | error e =>
      refine ⟨⟨"system", "Error: " ++ e⟩, ?_, ?_, ?_, ?_, ?_⟩
      · simp only [run_agent_task, hg, he]
        exact appendMsg_find_self _ _ _ _ h1
      · intro k hk
        simp only [run_agent_task, hg, he]
        rw [appendMsg_find_ne _ _ _ _ (Ne.symm hk), hconv]
      · intro a' st' r' hga he'
        simp_all
      · intro e' hge
        simp at hge
      · intro a' st' e' hga he'
        simp_all
    | ok r =>
      refine ⟨⟨"assistant", r.final_output⟩, ?_, ?_, ?_, ?_, ?_⟩
      · simp only [run_agent_task, hg, he]
        exact appendMsg_find_self _ _ _ _ h1
      · intro k hk
        simp only [run_agent_task, hg, he]
        rw [appendMsg_find_ne _ _ _ _ (Ne.symm hk), hconv]
      · intro a' st' r' hga he'
        simp_all
      · intro e' hge
        simp at hge
      · intro a' st' e' hga he'
        simp_all

/-! ## Send-helper lemmas -/

theorem sendError_closed (l : Option Nat) (s : List WsMsg) (m : String) (st : St) :
    (sendError l s m st).closed = true := by
  unfold sendError
  cases trySend l s ⟨"error", .errorData m⟩ <;> rfl

theorem sendError_st (l : Option Nat) (s : List WsMsg) (m : String) (st : St) :
    (sendError l s m st).st = st := by
  unfold sendError
  cases trySend l s ⟨"error", .errorData m⟩ <;> rfl

/-- With the client connected, the error send succeeds. -/
theorem sendError_none (s : List WsMsg) (m : String) (st : St) :
    sendError none s m st = ⟨s ++ [⟨"error", .errorData m⟩], true, st⟩ := rfl

/-- With the client connected, the forwarding loop sends every event. -/
theorem sendEvents_none (sent : List WsMsg) (evs : List StreamEvent) :
    sendEvents none sent evs =
      (sent ++ evs.map (fun ev => ⟨ev.type, WsData.payload ev.data⟩), false) := by
  induction evs generalizing sent with
  | nil => simp [sendEvents]
  | cons ev rest ih => simp [sendEvents, trySend, ih]

/-! ## Trace-effect lemmas -/

theorem run_agent_traces (st : St) (req : RunRequest) (fr fc : String) :
    ((run_agent st req fr fc).2).traces = st.traces := by
  cases h : (st.agent_configs.find req.agent_id).isNone <;>
    simp [run_agent, h, appendMsg_traces, ensureConv_traces]

theorem update_agent_traces (st : St) (id : String) (cfg : AgentConfig) (now : Nat) :
    ((update_agent st id cfg now).2).traces = st.traces := by
  cases h : (st.agent_configs.find id).isNone <;> simp [update_agent, h]

theorem delete_agent_traces (st : St) (id : String) :
    ((delete_agent st id).2).traces = st.traces := by
  cases h : (st.agent_configs.find id).isNone <;> simp [delete_agent, h]

theorem delete_conversation_traces (st : St) (id : String) :
    ((delete_conversation st id).2).traces = st.traces := by
  cases h : (st.conversations.find id).isNone <;> simp [delete_conversation, h]

/-- `run_agent_task` leaves `traces` unchanged, except on full success
where it adds exactly the one record keyed by its run id. -/
theorem run_agent_task_traces (env : RunEnv) (st : St) (rid aid cid inp : String) :
    (run_agent_task env st rid aid cid inp).traces = st.traces ∨
    ∃ tr, (run_agent_task env st rid aid cid inp).traces = st.traces.insert rid tr := by
  cases hg : get_agent_instance env.synth st aid with
  | error e =>
    left
    simp only [run_agent_task, hg, appendMsg_traces]
  | ok p =>
    obtain ⟨a, st₁⟩ := p
    have htr := (get_agent_instance_ok hg).2.2
    cases he : env.engine a inp with
    | error e =>
      left
      simp only [run_agent_task, hg, he, appendMsg_traces]
      exact htr
    | ok r =>
      right
      refine ⟨⟨r.raw_responses, r.new_items, env.timestamp⟩, ?_⟩
      simp only [run_agent_task, hg, he]
      rw [appendMsg_traces, htr]

/-- A streaming session leaves `traces` unchanged, except on full success
where it adds exactly the one record keyed by its run id. -/
theorem stream_agent_run_traces (env : StreamEnv) (st : St) (aid fc rid : String) :
    (stream_agent_run env st aid fc rid).st.traces = st.traces ∨
    ∃ tr, (stream_agent_run env st aid fc rid).st.traces = st.traces.insert rid tr := by
  cases hr : env.recv with
  | error ce =>
    cases ce
    · left; simp only [stream_agent_run, hr]
    · left; simp only [stream_agent_run, hr, sendError_st]
  | ok rd =>
    cases hg : get_agent_instance env.synth st aid with
    | error e =>
      left
      simp only [stream_agent_run, hr, hg, sendError_st]
    | ok p =>
      obtain ⟨a, st₁⟩ := p
      have htr := (get_agent_instance_ok hg).2.2
      have h2 : (appendMsg (ensureConv st₁ (rd.conversation_id.getD fc))
          (rd.conversation_id.getD fc) ⟨"user", rd.input⟩).traces = st.traces := by
        rw [appendMsg_traces, ensureConv_traces, htr]
      simp only [stream_agent_run, hr, hg]
      cases hse : sendEvents env.sendLimit [] (env.events a rd.input) with
      | mk sent disc =>
        cases disc
        · simp only [hse]
          cases he : env.engineEnd a rd.input with
          | error m =>
            left
            simp only [he, sendError_st]
            exact h2
          | ok r =>
            simp only [he]
            cases hts : trySend env.sendLimit sent
                ⟨"final_output", .finalOutput r.final_output⟩ with
            | none =>
              left
              simp only [hts]
              exact h2
            | some sent' =>
              right
              refine ⟨⟨r.raw_responses, r.new_items, env.timestamp⟩, ?_⟩
              simp only [hts]
              rw [appendMsg_traces, h2]
        · simp only [hse]
          left
          exact h2

/-! ## Streaming lemmas -/

/-- The connection is closed on every exit path of a streaming session. -/
theorem stream_closed (env : StreamEnv) (st : St) (aid fc rid : String) :
    (stream_agent_run env st aid fc rid).closed = true := by
  cases hr : env.recv with
  | error ce =>
    cases ce
    · simp only [stream_agent_run, hr]
    · simp only [stream_agent_run, hr]
      exact sendError_closed ..
  | ok rd =>
    cases hg : get_agent_instance env.synth st aid with
    | error e =>
      simp only [stream_agent_run, hr, hg]
      exact sendError_closed ..
    | ok p =>
      obtain ⟨a, st₁⟩ := p
      simp only [stream_agent_run, hr, hg]
      cases hse : sendEvents env.sendLimit [] (env.events a rd.input) with
      | mk sent disc =>
        cases disc
        · simp only [hse]
          cases he : env.engineEnd a rd.input with
          | error m =>
            simp only [he]
            exact sendError_closed ..
          | ok r =>
            simp only [he]
            cases hts : trySend env.sendLimit sent
                ⟨"final_output", .finalOutput r.final_output⟩ <;> simp only [hts]
        · simp only [hse]

/-- The messages sent to the connection do not depend on the generated run
id (it is only used as the trace key). -/
theorem stream_sent_rid (env : StreamEnv) (st : St) (aid fc rid₁ rid₂ : String) :
    (stream_agent_run env st aid fc rid₁).sent =
      (stream_agent_run env st aid fc rid₂).sent := by
  cases hr : env.recv with
  | error ce => cases ce <;> simp only [stream_agent_run, hr]
  | ok rd =>
    cases hg : get_agent_instance env.synth st aid with
    | error e => simp only [stream_agent_run, hr, hg]
    | ok p =>
      obtain ⟨a, st₁⟩ := p
      simp only [stream_agent_run, hr, hg]
      cases hse : sendEvents env.sendLimit [] (env.events a rd.input) with
      | mk sent disc =>
        cases disc
        · simp only [hse]
          cases he : env.engineEnd a rd.input with
          | error m => simp only [he]
          | ok r =>
            simp only [he]
            cases hts : trySend env.sendLimit sent
                ⟨"final_output", .finalOutput r.final_output⟩ <;> simp only [hts]
        · simp only [hse]

/-- Equation for a successful `run_agent`: it returns `status="running"`
with the generated ids and appends the user message synchronously. -/
theorem run_agent_ok (st : St) (req : RunRequest) (fr fc : String)
    (h : (st.agent_configs.find req.agent_id).isNone = false) :
    run_agent st req fr fc =
      (.ok { run_id := fr, agent_id := req.agent_id,
             conversation_id := req.conversation_id.getD fc,
             final_output := none, status := "running" },
       appendMsg (ensureConv st (req.conversation_id.getD fc))
         (req.conversation_id.getD fc) ⟨"user", req.input⟩) := by
  simp [run_agent, h]

/-! ## Claims -/

/-- C3: a `submit_run` call whose `config_id` is not in the Configuration
Store fails with NotFound and leaves the shared state completely unchanged:
no conversation is created (even when no `conversation_id` was supplied),
no message is appended anywhere, no trace is written, and the scheduled
continuation never runs. -/
theorem claim_C3 (env : RunEnv) (st : St) (req : RunRequest) (freshRun freshConv : String)
    (h : st.agent_configs.find req.agent_id = none) :
    run_agent st req freshRun freshConv = (.error .notFound, st) ∧
    batchRun env st req freshRun freshConv = (.error .notFound, st) := by
  have h1 : run_agent st req freshRun freshConv = (.error .notFound, st) := by
    simp [run_agent, h]
  exact ⟨h1, by simp [batchRun, h1]⟩

/-- Witness for C3 at a concrete unknown id against the empty state. -/
theorem claim_C3_witness :
    run_agent st0 ⟨"missing", "hi", none⟩ "r1" "c1" = (.error .notFound, st0) ∧
    batchRun runEnvOk st0 ⟨"missing", "hi", none⟩ "r1" "c1" = (.error .notFound, st0) :=
  claim_C3 runEnvOk st0 ⟨"missing", "hi", none⟩ "r1" "c1" rfl

/-- C7 counterexample: `create_agent` performs no collision check — creating
with the id `"a"` already present silently replaces the stored
configuration (`cfgOld` is overwritten by the distinct `cfgNew`). -/
theorem claim_C7_counterexample :
    (create_agent ⟨[("a", cfgOld)], [], [], []⟩ cfgNew).2.agent_configs.find "a" =
      some cfgNew ∧
    cfgNew ≠ cfgOld := by
  constructor
  · rfl
  · decide

/-- C7 (amended): `create` returns the stored config, with the id
auto-generated by the pydantic default factory when none is supplied, and
stores it under that id — but a supplied id that collides with an existing
configuration silently replaces it rather than being rejected. -/
theorem claim_C7 (st : St) (r : AgentConfigRequest) (freshId : String) (now : Nat)
    (cfg : AgentConfig) (hcfg : cfg = mkAgentConfig freshId now r) :
    (create_agent st cfg).1 = cfg ∧
    (create_agent st cfg).2.agent_configs.find cfg.id = some cfg ∧
    (r.id = none → cfg.id = freshId) := by
  refine ⟨rfl, Store.find_insert_self _ _ _, fun h => ?_⟩
  simp [hcfg, mkAgentConfig, h]

/-- Witness for C7: creating with no supplied id stores under the generated
id, over a state already holding an unrelated binding. -/
theorem claim_C7_witness :
    (create_agent stEcho (mkAgentConfig "fresh-id" 3 ⟨none, "N", "I", "gpt-4.1", []⟩)).1 =
      mkAgentConfig "fresh-id" 3 ⟨none, "N", "I", "gpt-4.1", []⟩ ∧
    (create_agent stEcho (mkAgentConfig "fresh-id" 3 ⟨none, "N", "I", "gpt-4.1", []⟩)).2.agent_configs.find
        (mkAgentConfig "fresh-id" 3 ⟨none, "N", "I", "gpt-4.1", []⟩).id =
      some (mkAgentConfig "fresh-id" 3 ⟨none, "N", "I", "gpt-4.1", []⟩) ∧
    ((⟨none, "N", "I", "gpt-4.1", []⟩ : AgentConfigRequest).id = none →
      (mkAgentConfig "fresh-id" 3 ⟨none, "N", "I", "gpt-4.1", []⟩).id = "fresh-id") :=
  claim_C7 stEcho ⟨none, "N", "I", "gpt-4.1", []⟩ "fresh-id" 3 _ rfl

/-- C6: after `update(id, config)` or `delete(id)` no cached AgentInstance
for that id remains; deleting removes the config from `list()`, a
subsequent `get_agent_instance` finds neither cache entry nor config and
fails NotFound, and a run submitted against the deleted id fails NotFound
with the state unchanged. (The hypothesis `hwf` records that every stored
config is keyed by its own id, as `create_agent`/`update_agent` ensure.) -/
theorem claim_C6 (st : St) (id : String) (cfg cfg0 : AgentConfig) (now : Nat)
    (hpresent : st.agent_configs.find id = some cfg0)
    (hwf : ∀ p ∈ st.agent_configs, p.1 = p.2.id) :
    (update_agent st id cfg now).2.agent_instances.find id = none ∧
    (delete_agent st id).2.agent_instances.find id = none ∧
    (delete_agent st id).2.agent_configs.find id = none ∧
    (∀ c ∈ list_agents (delete_agent st id).2, c.id ≠ id) ∧
    (∀ env, get_agent_instance env (delete_agent st id).2 id = .error .notFound) ∧
    (∀ req : RunRequest, req.agent_id = id → ∀ fr fc,
      run_agent (delete_agent st id).2 req fr fc =
        (.error .notFound, (delete_agent st id).2)) := by
  have hne : (st.agent_configs.find id).isNone = false := by simp [hpresent]
  have hdel : (delete_agent st id).2 =
      { st with
          agent_configs := st.agent_configs.erase id
          agent_instances := st.agent_instances.erase id } := by
    simp [delete_agent, hne]
  refine ⟨?_, ?_, ?_, ?_, ?_, ?_⟩
  · simp [update_agent, hne, Store.find_erase_self]
  · simp [hdel, Store.find_erase_self]
  · simp [hdel, Store.find_erase_self]
  · intro c hc
    rw [hdel] at hc
    simp only [list_agents, Store.values, List.mem_map] at hc
    obtain ⟨p, hp, rfl⟩ := hc
    simp only [Store.erase, List.mem_filter, decide_eq_true_eq] at hp
    have := hwf p hp.1
    rw [← this]
    exact hp.2
  · intro env
    simp [get_agent_instance, hdel, Store.find_erase_self]
  · intro req hreq fr fc
    simp [run_agent, hdel, hreq, Store.find_erase_self]

/-- Witness for C6 at the one-config state `stEcho`. -/
theorem claim_C6_witness :
    (update_agent stEcho "a" cfgNew 4).2.agent_instances.find "a" = none ∧
    (delete_agent stEcho "a").2.agent_instances.find "a" = none ∧
    (delete_agent stEcho "a").2.agent_configs.find "a" = none ∧
    (∀ c ∈ list_agents (delete_agent stEcho "a").2, c.id ≠ "a") ∧
    (∀ env, get_agent_instance env (delete_agent stEcho "a").2 "a" = .error .notFound) ∧
    (∀ req : RunRequest, req.agent_id = "a" → ∀ fr fc,
      run_agent (delete_agent stEcho "a").2 req fr fc =
        (.error .notFound, (delete_agent stEcho "a").2)) :=
  claim_C6 stEcho "a" cfgNew cfgEcho 4 rfl
    (by intro p hp; simp [stEcho] at hp; simp [hp, cfgEcho])

/-- C4 counterexample: builtin tool construction is NOT protected by the
`try/except` of the function-tool branch. With a `web_search` tool whose
constructor raises, `get_agent_instance` aborts with that exception — the
remaining function tool (which synthesizes fine on its own) is never
synthesized and no agent is constructed, contradicting the claim for
builtin-kind failures. -/
theorem claim_C4_counterexample :
    get_agent_instance synthEnvX stWeb "b" = .error (.exn "web constructor raised") ∧
    synthTools synthEnvX [toolG] = .ok [.funTool "g_fn"] := by
  constructor
  · rfl
  · rfl

/-- C4 (amended): only a *function-kind* tool's synthesis failure (source
that is falsy/fails to compile, or a namespace missing a callable matching
the spec's `name`) is non-fatal: it is skipped and synthesis of the
remaining tools proceeds, so agent construction still succeeds whenever the
remaining tools synthesize. A builtin (`web_search`/`file_search`)
capability whose constructor raises aborts agent construction instead. -/
theorem claim_C4 (env : SynthEnv) (tc : ToolConfig) (rest : List ToolConfig)
    (hkind : tc.type = .function)
    (hfail : codeTruthy tc.function_code = false ∨
      (codeTruthy tc.function_code = true ∧
        ((∃ e, env.compile (tc.function_code.getD "") = .error e) ∨
         (∃ ns, env.compile (tc.function_code.getD "") = .ok ns ∧ ns tc.name = none)))) :
    synthTools env (tc :: rest) = synthTools env rest ∧
    (∀ st aid cfg caps, st.agent_instances.find aid = none →
      st.agent_configs.find aid = some cfg → cfg.tools = tc :: rest →
      synthTools env rest = .ok caps →
      get_agent_instance env st aid = .ok
        ({ name := cfg.name, instructions := cfg.instructions,
           model := mapModel env cfg.model, tools := caps },
         { st with agent_instances :=
                     st.agent_instances.insert aid
                       { name := cfg.name, instructions := cfg.instructions,
                         model := mapModel env cfg.model, tools := caps } })) := by
  have h1 : synthTools env (tc :: rest) = synthTools env rest := by
    rcases hfail with hft | ⟨hct, hcomp⟩
    · simp [synthTools, hkind, hft]
    · rcases hcomp with ⟨e, he⟩ | ⟨ns, hns, hname⟩
      · simp [synthTools, hkind, hct, he]
      · simp [synthTools, hkind, hct, hns, hname]
  refine ⟨h1, ?_⟩
  intro st aid cfg caps hinst hcfg htools hcaps
  simp [get_agent_instance, hinst, hcfg, htools, h1, hcaps]

/-- Witness for C4: the syntactically invalid `toolBad` is skipped and the
agent for `cfgBadTool` is still constructed, with only `toolG`'s
capability. -/
theorem claim_C4_witness :
    synthTools synthEnvX [toolBad, toolG] = synthTools synthEnvX [toolG] ∧
    get_agent_instance synthEnvX stBadTool "f" = .ok
      ({ name := cfgBadTool.name, instructions := cfgBadTool.instructions,
         model := mapModel synthEnvX cfgBadTool.model, tools := [.funTool "g_fn"] },
       { stBadTool with agent_instances :=
                          stBadTool.agent_instances.insert "f"
                            { name := cfgBadTool.name,
                              instructions := cfgBadTool.instructions,
                              model := mapModel synthEnvX cfgBadTool.model,
                              tools := [.funTool "g_fn"] } }) := by
  have h := claim_C4 synthEnvX toolBad [toolG] rfl
    (Or.inr ⟨by decide, Or.inl ⟨"SyntaxError: invalid source", rfl⟩⟩)
  exact ⟨h.1, h.2 stBadTool "f" cfgBadTool [.funTool "g_fn"] rfl rfl rfl rfl⟩

/-- C8: `submit_run` appends the user message synchronously, before
returning: the state `run_agent` returns already has the conversation
ending with the user message, although the continuation has not run; and
after the continuation runs — whatever its outcome, including failure at
instance resolution or in the engine — the user message is still in place
(followed by exactly the one terminal message the task appends). -/
theorem claim_C8 (env : RunEnv) (st : St) (req : RunRequest) (fr fc : String)
    (cfg0 : AgentConfig) (hcfg : st.agent_configs.find req.agent_id = some cfg0) :
    ∃ resp st₁,
      run_agent st req fr fc = (.ok resp, st₁) ∧
      resp.conversation_id = req.conversation_id.getD fc ∧
      st₁.conversations.find resp.conversation_id =
        some ((st.conversations.find resp.conversation_id).getD [] ++
          [⟨"user", req.input⟩]) ∧
      ∃ t : Message,
        (run_agent_task env st₁ resp.run_id req.agent_id resp.conversation_id
            req.input).conversations.find resp.conversation_id =
          some ((st.conversations.find resp.conversation_id).getD [] ++
            [⟨"user", req.input⟩, t]) := by
  have hni : (st.agent_configs.find req.agent_id).isNone = false := by simp [hcfg]
  have hrun := run_agent_ok st req fr fc hni
  refine ⟨_, _, hrun, rfl, ensure_append_find st _ _, ?_⟩
  obtain ⟨t, ht, -⟩ := run_agent_task_conv env _ fr req.agent_id _ req.input _
    (ensure_append_find st (req.conversation_id.getD fc) ⟨"user", req.input⟩)
  exact ⟨t, by rw [ht]; simp⟩

/-- Witness for C8: a submit against `stEcho` whose continuation fails in
the engine; the user message is appended on submit and survives. -/
theorem claim_C8_witness :
    ∃ resp st₁,
      run_agent stEcho ⟨"a", "hi", none⟩ "r1" "c1" = (.ok resp, st₁) ∧
      resp.conversation_id = (none : Option String).getD "c1" ∧
      st₁.conversations.find resp.conversation_id =
        some ((stEcho.conversations.find resp.conversation_id).getD [] ++
          [⟨"user", "hi"⟩]) ∧
      ∃ t : Message,
        (run_agent_task runEnvFail st₁ resp.run_id "a" resp.conversation_id
            "hi").conversations.find resp.conversation_id =
          some ((stEcho.conversations.find resp.conversation_id).getD [] ++
            [⟨"user", "hi"⟩, t]) :=
  claim_C8 runEnvFail stEcho ⟨"a", "hi", none⟩ "r1" "c1" cfgEcho rfl

/-- C1: a batch run (submit plus continuation) leaves the target
conversation with exactly one new user message (the input) and exactly one
new terminal message after it — assistant with the engine's final output
when instance resolution and the engine invocation succeed, system with
the error text when either raises — and touches no other conversation. -/
theorem claim_C1 (env : RunEnv) (st : St) (req : RunRequest) (fr fc : String)
    (cfg0 : AgentConfig) (hcfg : st.agent_configs.find req.agent_id = some cfg0) :
    ∃ resp st₁ t,
      run_agent st req fr fc = (.ok resp, st₁) ∧
      resp.conversation_id = req.conversation_id.getD fc ∧
      batchRun env st req fr fc =
        (.ok resp,
         run_agent_task env st₁ resp.run_id req.agent_id resp.conversation_id
           req.input) ∧
      (batchRun env st req fr fc).2.conversations.find resp.conversation_id =
        some ((st.conversations.find resp.conversation_id).getD [] ++
          [⟨"user", req.input⟩, t]) ∧
      (∀ k, k ≠ resp.conversation_id →
        (batchRun env st req fr fc).2.conversations.find k =
          st.conversations.find k) ∧
      (∀ a st₂ r, get_agent_instance env.synth st₁ req.agent_id = .ok (a, st₂) →
        env.engine a req.input = .ok r → t = ⟨"assistant", r.final_output⟩) ∧
      (∀ e, get_agent_instance env.synth st₁ req.agent_id = .error e →
        t = ⟨"system", "Error: " ++ e.text⟩) ∧
      (∀ a st₂ e, get_agent_instance env.synth st₁ req.agent_id = .ok (a, st₂) →
        env.engine a req.input = .error e → t = ⟨"system", "Error: " ++ e⟩) := by
  have hni : (st.agent_configs.find req.agent_id).isNone = false := by simp [hcfg]
  have hrun := run_agent_ok st req fr fc hni
  obtain ⟨t, ht, hframe, hok, herr, heng⟩ :=
    run_agent_task_conv env _ fr req.agent_id (req.conversation_id.getD fc) req.input _
      (ensure_append_find st (req.conversation_id.getD fc) ⟨"user", req.input⟩)
  have hbatch : batchRun env st req fr fc =
      (.ok { run_id := fr, agent_id := req.agent_id,
             conversation_id := req.conversation_id.getD fc,
             final_output := none, status := "running" },
       run_agent_task env
         (appendMsg (ensureConv st (req.conversation_id.getD fc))
           (req.conversation_id.getD fc) ⟨"user", req.input⟩)
         fr req.agent_id (req.conversation_id.getD fc) req.input) := by
    simp [batchRun, hrun]
  refine ⟨_, _, t, hrun, rfl, hbatch, ?_, ?_, hok, herr, heng⟩
  · rw [hbatch, ht]
    simp
  · intro k hk
    rw [hbatch]
    rw [hframe k hk, appendMsg_find_ne _ _ _ _ (Ne.symm hk),
      ensureConv_find_ne _ _ _ (Ne.symm hk)]

/-- Witness for C1: a successful batch run against `stEcho` appends the
user message and the assistant echo. -/
theorem claim_C1_witness :
    ∃ resp st₁ t,
      run_agent stEcho ⟨"a", "hi", none⟩ "r1" "c1" = (.ok resp, st₁) ∧
      resp.conversation_id = (none : Option String).getD "c1" ∧
      batchRun runEnvOk stEcho ⟨"a", "hi", none⟩ "r1" "c1" =
        (.ok resp,
         run_agent_task runEnvOk st₁ resp.run_id "a" resp.conversation_id "hi") ∧
      (batchRun runEnvOk stEcho ⟨"a", "hi", none⟩ "r1" "c1").2.conversations.find
          resp.conversation_id =
        some ((stEcho.conversations.find resp.conversation_id).getD [] ++
          [⟨"user", "hi"⟩, t]) ∧
      (∀ k, k ≠ resp.conversation_id →
        (batchRun runEnvOk stEcho ⟨"a", "hi", none⟩ "r1" "c1").2.conversations.find k =
          stEcho.conversations.find k) ∧
      (∀ a st₂ r, get_agent_instance runEnvOk.synth st₁ "a" = .ok (a, st₂) →
        runEnvOk.engine a "hi" = .ok r → t = ⟨"assistant", r.final_output⟩) ∧
      (∀ e, get_agent_instance runEnvOk.synth st₁ "a" = .error e →
        t = ⟨"system", "Error: " ++ e.text⟩) ∧
      (∀ a st₂ e, get_agent_instance runEnvOk.synth st₁ "a" = .ok (a, st₂) →
        runEnvOk.engine a "hi" = .error e → t = ⟨"system", "Error: " ++ e⟩) :=
  claim_C1 runEnvOk stEcho ⟨"a", "hi", none⟩ "r1" "c1" cfgEcho rfl

/-- C2: every streaming session closes the connection on every exit path;
and while the client stays connected, the messages sent are zero or more
forwarded `{type, data}` events followed by exactly one terminal message —
`final_output` with the content when the run succeeds, an `error` message
with the exception text in its place when receive/parse, instance
resolution or the engine raises. -/
theorem claim_C2 (env : StreamEnv) (st : St) (aid fc rid : String) :
    (stream_agent_run env st aid fc rid).closed = true ∧
    (env.sendLimit = none →
      (∀ m, env.recv = .error (.exn m) →
        (stream_agent_run env st aid fc rid).sent = [⟨"error", .errorData m⟩]) ∧
      (∀ rd e, env.recv = .ok rd → get_agent_instance env.synth st aid = .error e →
        (stream_agent_run env st aid fc rid).sent =
          [⟨"error", .errorData e.text⟩]) ∧
      (∀ rd a st₁ m, env.recv = .ok rd →
        get_agent_instance env.synth st aid = .ok (a, st₁) →
        env.engineEnd a rd.input = .error m →
        (stream_agent_run env st aid fc rid).sent =
          (env.events a rd.input).map (fun ev => ⟨ev.type, WsData.payload ev.data⟩) ++
            [⟨"error", .errorData m⟩]) ∧
      (∀ rd a st₁ r, env.recv = .ok rd →
        get_agent_instance env.synth st aid = .ok (a, st₁) →
        env.engineEnd a rd.input = .ok r →
        (stream_agent_run env st aid fc rid).sent =
          (env.events a rd.input).map (fun ev => ⟨ev.type, WsData.payload ev.data⟩) ++
            [⟨"final_output", .finalOutput r.final_output⟩])) := by
  refine ⟨stream_closed env st aid fc rid, fun hlim => ⟨?_, ?_, ?_, ?_⟩⟩
  · intro m hr
    simp [stream_agent_run, hr, hlim, sendError_none]
  · intro rd e hr hg
    simp [stream_agent_run, hr, hg, hlim, sendError_none]
  · intro rd a st₁ m hr hg he
    simp only [stream_agent_run, hr, hg, hlim, sendEvents_none, he, sendError_none,
      List.nil_append]
  · intro rd a st₁ r hr hg he
    simp only [stream_agent_run, hr, hg, hlim, sendEvents_none, he, trySend,
      List.nil_append]

/-- Witness for C2: the concrete successful session forwards its one event
and terminates with the `final_output` message; the connection is closed. -/
theorem claim_C2_witness :
    (stream_agent_run streamEnvOk stEcho "a" "c1" "r9").closed = true ∧
    (stream_agent_run streamEnvOk stEcho "a" "c1" "r9").sent =
      [⟨"delta", .payload "d1"⟩, ⟨"final_output", .finalOutput "out"⟩] := by
  have h := claim_C2 streamEnvOk stEcho "a" "c1" "r9"
  refine ⟨h.1, ?_⟩
  have h4 := (h.2 rfl).2.2.2 ⟨"hi", none⟩ agentEcho
    { stEcho with agent_instances := stEcho.agent_instances.insert "a" agentEcho }
    ⟨"out", ["raw1"], ["item1"]⟩ rfl rfl rfl
  simpa using h4

/-- C9: in streaming mode, when the run fails with any exception after the
user message has been appended (here: the engine raising mid-stream), no
terminal message of any role is appended to the conversation — it is left
ending with the unanswered user message — and no trace is written. -/
theorem claim_C9 (env : StreamEnv) (st : St) (aid fc rid : String)
    (rd : RunData) (a : Agent) (st₁ : St) (m : String)
    (hrecv : env.recv = .ok rd)
    (hres : get_agent_instance env.synth st aid = .ok (a, st₁))
    (heng : env.engineEnd a rd.input = .error m) :
    (stream_agent_run env st aid fc rid).st.conversations.find
        (rd.conversation_id.getD fc) =
      some ((st.conversations.find (rd.conversation_id.getD fc)).getD [] ++
        [⟨"user", rd.input⟩]) ∧
    (stream_agent_run env st aid fc rid).st.traces = st.traces := by
  obtain ⟨-, hconv, htr⟩ := get_agent_instance_ok hres
  have hfind : (appendMsg (ensureConv st₁ (rd.conversation_id.getD fc))
      (rd.conversation_id.getD fc) ⟨"user", rd.input⟩).conversations.find
        (rd.conversation_id.getD fc) =
      some ((st.conversations.find (rd.conversation_id.getD fc)).getD [] ++
        [⟨"user", rd.input⟩]) := by
    rw [ensure_append_find, hconv]
  have htr2 : (appendMsg (ensureConv st₁ (rd.conversation_id.getD fc))
      (rd.conversation_id.getD fc) ⟨"user", rd.input⟩).traces = st.traces := by
    rw [appendMsg_traces, ensureConv_traces, htr]
  simp only [stream_agent_run, hrecv, hres]
  cases hse : sendEvents env.sendLimit [] (env.events a rd.input) with
  | mk sent disc =>
    cases disc
    · simp only [hse, heng, sendError_st]
      exact ⟨hfind, htr2⟩
    · simp only [hse]
      exact ⟨hfind, htr2⟩

/-- Witness for C9 with the concrete failing stream `streamEnvFail`. -/
theorem claim_C9_witness :
    (stream_agent_run streamEnvFail stEcho "a" "c1" "r9").st.conversations.find
        ((none : Option String).getD "c1") =
      some ((stEcho.conversations.find ((none : Option String).getD "c1")).getD [] ++
        [⟨"user", "hi"⟩]) ∧
    (stream_agent_run streamEnvFail stEcho "a" "c1" "r9").st.traces =
      stEcho.traces :=
  claim_C9 streamEnvFail stEcho "a" "c1" "r9" ⟨"hi", none⟩ agentEcho
    { stEcho with agent_instances := stEcho.agent_instances.insert "a" agentEcho }
    "stream broke" rfl rfl rfl

/-- C10: on a successful streaming run the trace is stored under the
freshly generated run id and is retrievable through `get_trace` only by
that key — but the messages sent to the caller are identical whatever the
run id is (the `final_output` message carries only the content), so the
caller never learns the key. -/
theorem claim_C10 (env : StreamEnv) (st : St) (aid fc rid : String)
    (rd : RunData) (a : Agent) (st₁ : St) (r : EngineResult)
    (hlim : env.sendLimit = none)
    (hrecv : env.recv = .ok rd)
    (hres : get_agent_instance env.synth st aid = .ok (a, st₁))
    (heng : env.engineEnd a rd.input = .ok r) :
    (stream_agent_run env st aid fc rid).st.traces.find rid =
      some ⟨r.raw_responses, r.new_items, env.timestamp⟩ ∧
    get_trace (stream_agent_run env st aid fc rid).st rid =
      .ok ⟨r.raw_responses, r.new_items, env.timestamp⟩ ∧
    (∀ rid₁ rid₂, (stream_agent_run env st aid fc rid₁).sent =
      (stream_agent_run env st aid fc rid₂).sent) ∧
    (stream_agent_run env st aid fc rid).sent =
      (env.events a rd.input).map (fun ev => ⟨ev.type, WsData.payload ev.data⟩) ++
        [⟨"final_output", .finalOutput r.final_output⟩] := by
  have hfind : (stream_agent_run env st aid fc rid).st.traces.find rid =
      some ⟨r.raw_responses, r.new_items, env.timestamp⟩ := by
    simp only [stream_agent_run, hrecv, hres, hlim, sendEvents_none, heng, trySend]
    exact Store.find_insert_self ..
  refine ⟨hfind, ?_, fun rid₁ rid₂ => stream_sent_rid env st aid fc rid₁ rid₂, ?_⟩
  · simp only [get_trace, hfind]
  · simp only [stream_agent_run, hrecv, hres, hlim, sendEvents_none, heng, trySend,
      List.nil_append]

/-- Witness for C10 with the concrete successful stream `streamEnvOk`. -/
theorem claim_C10_witness :
    (stream_agent_run streamEnvOk stEcho "a" "c1" "r9").st.traces.find "r9" =
      some ⟨["raw1"], ["item1"], 9⟩ ∧
    get_trace (stream_agent_run streamEnvOk stEcho "a" "c1" "r9").st "r9" =
      .ok ⟨["raw1"], ["item1"], 9⟩ ∧
    (∀ rid₁ rid₂, (stream_agent_run streamEnvOk stEcho "a" "c1" rid₁).sent =
      (stream_agent_run streamEnvOk stEcho "a" "c1" rid₂).sent) ∧
    (stream_agent_run streamEnvOk stEcho "a" "c1" "r9").sent =
      (streamEnvOk.events agentEcho "hi").map
          (fun ev => ⟨ev.type, WsData.payload ev.data⟩) ++
        [⟨"final_output", .finalOutput "out"⟩] :=
  claim_C10 streamEnvOk stEcho "a" "c1" "r9" ⟨"hi", none⟩ agentEcho
    { stEcho with agent_instances := stEcho.agent_instances.insert "a" agentEcho }
    ⟨"out", ["raw1"], ["item1"]⟩ rfl rfl rfl rfl

/-- C5 counterexample: a batch run that completes with an in-band error
message appended (engine raised) writes NO RunRecord — `traces` stays
empty — contradicting "created exactly when the run completes ... whether
successfully or with an in-band error message appended". -/
theorem claim_C5_counterexample :
    (batchRun runEnvFail stEcho ⟨"a", "hi", none⟩ "r1" "c1").2.conversations.find "c1" =
      some [⟨"user", "hi"⟩, ⟨"system", "Error: engine down"⟩] ∧
    (batchRun runEnvFail stEcho ⟨"a", "hi", none⟩ "r1" "c1").2.traces = [] := by
  constructor <;> rfl

/-- C5 (amended): a RunRecord keyed by the run id is created exactly when
the run completes *successfully*; a run that completes with an in-band
error message (instance resolution or the engine raised) writes no
RunRecord; and — the run ids being freshly generated — no operation of the
API ever mutates or removes an existing RunRecord. -/
theorem claim_C5 :
    (∀ (op : Op) (st : St), op.freshTraceId st →
      ∀ k v, st.traces.find k = some v → (op.apply st).traces.find k = some v) ∧
    (∀ (env : RunEnv) (st : St) (rid aid cid inp : String) (a : Agent) (st₁ : St)
      (r : EngineResult),
      get_agent_instance env.synth st aid = .ok (a, st₁) →
      env.engine a inp = .ok r →
      (run_agent_task env st rid aid cid inp).traces =
        st.traces.insert rid ⟨r.raw_responses, r.new_items, env.timestamp⟩) ∧
    (∀ (env : RunEnv) (st : St) (rid aid cid inp : String) (e : Err),
      get_agent_instance env.synth st aid = .error e →
      (run_agent_task env st rid aid cid inp).traces = st.traces) ∧
    (∀ (env : RunEnv) (st : St) (rid aid cid inp : String) (a : Agent) (st₁ : St)
      (e : String),
      get_agent_instance env.synth st aid = .ok (a, st₁) →
      env.engine a inp = .error e →
      (run_agent_task env st rid aid cid inp).traces = st.traces) := by
  refine ⟨?_, ?_, ?_, ?_⟩
  · intro op st hfresh k v hk
    cases op with
    | createA cfg => simpa [Op.apply, create_agent] using hk
    | updateA id cfg now =>
      rw [Op.apply, update_agent_traces]
      exact hk
    | deleteA id =>
      rw [Op.apply, delete_agent_traces]
      exact hk
    | submitRun req fr fc =>
      rw [Op.apply, run_agent_traces]
      exact hk
    | taskRun env rid aid cid inp =>
      have hne : rid ≠ k := by
        intro hh
        rw [hh] at hfresh
        rw [Op.freshTraceId] at hfresh
        simp [hfresh] at hk
      rcases run_agent_task_traces env st rid aid cid inp with h | ⟨tr, h⟩
      · rw [Op.apply, h]; exact hk
      · rw [Op.apply, h, Store.find_insert_ne _ _ _ _ hne]; exact hk
    | streamRun env aid fc rid =>
      have hne : rid ≠ k := by
        intro hh
        rw [hh] at hfresh
        rw [Op.freshTraceId] at hfresh
        simp [hfresh] at hk
      rcases stream_agent_run_traces env st aid fc rid with h | ⟨tr, h⟩
      · rw [Op.apply, h]; exact hk
      · rw [Op.apply, h, Store.find_insert_ne _ _ _ _ hne]; exact hk
    | deleteConv id =>
      rw [Op.apply, delete_conversation_traces]
      exact hk
  · intro env st rid aid cid inp a st₁ r hg he
    have htr := (get_agent_instance_ok hg).2.2
    simp only [run_agent_task, hg, he]
    rw [appendMsg_traces, htr]
  · intro env st rid aid cid inp e hg
    simp only [run_agent_task, hg, appendMsg_traces]
  · intro env st rid aid cid inp a st₁ e hg he
    have htr := (get_agent_instance_ok hg).2.2
    simp only [run_agent_task, hg, he, appendMsg_traces]
    exact htr

/-- Witness for C5: the pre-existing trace `"t0"` of `stTr` survives a run
operation, and a concrete failing run leaves `traces` untouched. -/
theorem claim_C5_witness :
    ((Op.taskRun runEnvOk "r1" "a" "c1" "hi").apply stTr).traces.find "t0" =
      some trX ∧
    (run_agent_task runEnvFail stTr "r1" "a" "c1" "hi").traces = stTr.traces :=
  ⟨claim_C5.1 (Op.taskRun runEnvOk "r1" "a" "c1" "hi") stTr rfl "t0" trX rfl,
   claim_C5.2.2.2 runEnvFail stTr "r1" "a" "c1" "hi" agentEcho
     { stTr with agent_instances := stTr.agent_instances.insert "a" agentEcho }
     "engine down" rfl rfl⟩

end Workbench
